import Mathlib

/-!
Shallow embedding of the job-orchestration core of `src/api.ts`
(YouTube Downloader, Deno/TypeScript port).

Modelling conventions:
* JS strings are Lean `String`s; JS numbers are `ℚ` where fractional
  values occur (percentages, progress) and `Int`/`Nat` for timestamps
  and counters (all such values in this code are integral).
* Fields that may be `undefined` in TS are `Option`s.  JS truthiness on
  an optional string (`s ||`) is "present and nonempty"; on an optional
  number it is "present and nonzero".
* The filesystem and the child process are external collaborators: a
  directory listing is a `List FsEntry`, file existence is a predicate
  `String → Bool`, exit codes / stderr-derived messages / archiver
  success are explicit parameters.
* Persisted state of one job (its `metadata.json` and `status.json`
  documents plus the `lastStatusWrite` throttle entry) is the `Persist`
  structure; the write helpers mirror `writeJobMetadata` /
  `writeJobStatus`.
-/

namespace YTD

/-- `format_type` field of a job: `"audio" | "video"` (`src/api.ts:219`). -/
inductive FormatType
  | audio
  | video
deriving DecidableEq, Repr

/-- In-memory `JobStatus` (`src/api.ts:213`).  The TS string
`"playlist"` is the active playlist-processing status. -/
inductive JobStatus
  | pending
  | processing
  | completed
  | failed
  | playlist
  | interrupted
deriving DecidableEq, Repr

/-- On-disk `StoredStatus` (`src/api.ts:284`). -/
inductive StoredStatus
  | queued
  | downloading
  | complete
  | failed
  | interrupted
deriving DecidableEq, Repr

/-- The JSON string a `StoredStatus` is serialized as. -/
def StoredStatus.str : StoredStatus → String
  | .queued => "queued"
  | .downloading => "downloading"
  | .complete => "complete"
  | .failed => "failed"
  | .interrupted => "interrupted"

/-- The `Job` record (`src/api.ts:215`).  `hasProcess` models presence of
the non-persisted child-process handle `_process`. -/
structure Job where
  id : String
  status : JobStatus
  url : String
  format_type : FormatType
  quality : String
  playlist : Bool
  created_at : Int
  message : Option String := none
  error : Option String := none
  file_path : Option String := none
  file_name : Option String := none
  percent : Option ℚ := none
  speed : Option String := none
  eta : Option String := none
  file_size : Option String := none
  playlist_title : Option String := none
  total_videos : Option Nat := none
  current_video : Option Nat := none
  current_title : Option String := none
  video_titles : Option (List String) := none
  skipped_videos : Option (List String) := none
  hasProcess : Bool := false
deriving DecidableEq, Repr

/-! ### String helpers

These re-implement, by structural recursion over `List Char`, exactly
the JS string primitives the embedded code uses (`includes`,
`endsWith`, `toLowerCase`, `trim`, whitespace collapsing, `basename`),
so that closed terms evaluate inside `decide`/`rfl`. -/

/-- Substring occurrence test on character lists (JS `String.includes`). -/
def listHasSub (pat : List Char) : List Char → Bool
  | [] => pat.isEmpty
  | c :: cs => pat.isPrefixOf (c :: cs) || listHasSub pat cs

/-- JS `s.includes(pat)`. -/
def containsStr (s pat : String) : Bool := listHasSub pat.data s.data

/-- JS `s.endsWith(suf)`. -/
def strEndsWith (s suf : String) : Bool := suf.data.isSuffixOf s.data

/-- JS `s.toLowerCase()` (ASCII-adequate for the extensions compared). -/
def strToLower (s : String) : String := ⟨s.data.map Char.toLower⟩

/-- JS `s.trim()`. -/
def strTrim (s : String) : String :=
  ⟨((s.data.dropWhile Char.isWhitespace).reverse.dropWhile Char.isWhitespace).reverse⟩

/-- `std/path` `basename`, for the `/`-separated paths this model builds:
the suffix after the last `/`. -/
def basename (p : String) : String :=
  ⟨(p.data.reverse.takeWhile (fun c => c ≠ '/')).reverse⟩

/-- JS `opt || alt` where `opt` is an optional string: first operand if
present and nonempty, else `alt`. -/
def jsOrS (opt : Option String) (alt : String) : String :=
  match opt with
  | some s => if s = "" then alt else s
  | none => alt

/-! ### Persistence constants and documents -/

def META_FILENAME : String := "metadata.json"

def STATUS_FILENAME : String := "status.json"

/-- `DOWNLOADS_DIR` from `src/paths.ts` (`join(ROOT_DIR, "downloads")`),
taken relative to the root. -/
def DOWNLOADS_DIR : String := "downloads"

/-- `jobDir` (`src/api.ts:286`). -/
def jobDir (jobId : String) : String := DOWNLOADS_DIR ++ "/" ++ jobId

/-- `getJobTitle` (`src/api.ts:325`): first truthy of
`playlist_title || current_title || file_name || url`. -/
def getJobTitle (j : Job) : String :=
  jsOrS j.playlist_title (jsOrS j.current_title (jsOrS j.file_name j.url))

/-- `toStoredStatus` (`src/api.ts:334`). -/
def toStoredStatus : JobStatus → StoredStatus
  | .pending => .queued
  | .processing => .downloading
  | .playlist => .downloading
  | .completed => .complete
  | .failed => .failed
  | .interrupted => .interrupted

/-- `fromStoredStatus` (`src/api.ts:350`): maps the raw stored string,
with an unrecognised string defaulting to `failed`. -/
def fromStoredStatus (stored : String) : JobStatus :=
  if stored = "queued" then .pending
  else if stored = "downloading" then .interrupted
  else if stored = "complete" then .completed
  else if stored = "failed" then .failed
  else if stored = "interrupted" then .interrupted
  else .failed

/-- JS `Math.round` (half away from zero on the values occurring here;
`⌊x + 1/2⌋` agrees with JS on all reals). -/
def jsRound (x : ℚ) : ℤ := ⌊x + 1 / 2⌋

/-- `getJobProgress` (`src/api.ts:367`).  The `total_videos &&
current_video` truthiness check requires both counters present and
nonzero. -/
def getJobProgress (j : Job) : ℚ :=
  match j.percent with
  | some p => max 0 (min 100 p)
  | none =>
    match j.total_videos, j.current_video with
    | some t, some c =>
        if t ≠ 0 ∧ c ≠ 0 then
          max 0 (min 100 ((jsRound ((c : ℚ) / (t : ℚ) * 100) : ℚ)))
        else 0
    | _, _ => 0

/-- The `metadata.json` document as written by `writeJobMetadata`
(`src/api.ts:375`). -/
structure MetaDoc where
  id : String
  url : String
  title : String
  created_at : Int
  file_path : String
  format_type : FormatType
  quality : String
  playlist : Bool
  playlist_title : String
  total_videos : Nat
  current_video : Nat
  video_titles : List String
  skipped_videos : List String
deriving DecidableEq, Repr

/-- `writeJobMetadata` (`src/api.ts:375`): the document it serialises
(`x || default` on each optional field is `Option.getD`). -/
def writeJobMetadata (j : Job) : MetaDoc :=
  { id := j.id
    url := j.url
    title := getJobTitle j
    created_at := j.created_at
    file_path := j.file_path.getD ""
    format_type := j.format_type
    quality := j.quality
    playlist := j.playlist
    playlist_title := j.playlist_title.getD ""
    total_videos := j.total_videos.getD 0
    current_video := j.current_video.getD 0
    video_titles := j.video_titles.getD []
    skipped_videos := j.skipped_videos.getD [] }

/-- The `status.json` document (`src/api.ts:404`). -/
structure StatusDoc where
  status : StoredStatus
  progress : ℚ
deriving DecidableEq, Repr

/-- The status document `writeJobStatus` produces for a job. -/
def mkStatusDoc (j : Job) : StatusDoc :=
  { status := toStoredStatus j.status, progress := getJobProgress j }

/-- Persisted state of one job: its `lastStatusWrite` entry
(`get(...) || 0`) and the two on-disk documents (`none` = not yet
written). -/
structure Persist where
  lastWrite : Int := 0
  statusDoc : Option StatusDoc := none
  metaDoc : Option MetaDoc := none
deriving DecidableEq, Repr

/-- `writeJobStatus` (`src/api.ts:396`): skipped when not forced and
less than 1500 ms have elapsed since the last write; otherwise records
the write time and replaces the status document. -/
def writeJobStatus (j : Job) (force : Bool) (now : Int) (p : Persist) : Persist :=
  if force = false ∧ now - p.lastWrite < 1500 then p
  else { p with lastWrite := now, statusDoc := some (mkStatusDoc j) }

/-- Effect of `writeJobMetadata` on the persisted state (never
throttled). -/
def writeMetaDoc (j : Job) (p : Persist) : Persist :=
  { p with metaDoc := some (writeJobMetadata j) }

/-! ### Directory scans -/

/-- One directory entry as seen through `Deno.readDir` + `Deno.stat`. -/
structure FsEntry where
  name : String
  isFile : Bool
  size : Nat
deriving DecidableEq, Repr

/-- The extension allow-set of `findMediaFileForJob` (`src/api.ts:413`):
`preferredExt ∪ fallbackExt` is the same 8-element set for either
format, so the format argument does not affect the result. -/
def mediaExts : List String :=
  [".mp3", ".m4a", ".ogg", ".wav", ".flac", ".mp4", ".mkv", ".webm"]

/-- The candidate filter of `findMediaFileForJob` (`src/api.ts:419`):
regular files, not the two persistence documents, no `.part` /
`.temp.` marker, extension in the allow-set (all on the lowercased
name).  Note: no zero-size check here. -/
def findMediaCandidates (entries : List FsEntry) : List String :=
  (entries.filter (fun e =>
    e.isFile &&
    (let n := strToLower e.name
     n ≠ META_FILENAME && n ≠ STATUS_FILENAME &&
     !containsStr n ".part" && !containsStr n ".temp." &&
     mediaExts.any (fun ext => strEndsWith n ext)))).map (fun e => e.name)

/-- Lexicographic code-point comparison on character lists. -/
def charListLe : List Char → List Char → Bool
  | [], _ => true
  | _ :: _, [] => false
  | a :: as, b :: bs => if a = b then charListLe as bs else decide (a < b)

def strLeB (a b : String) : Bool := charListLe a.data b.data

/-- `candidates.sort(localeCompare)[0]`: the least candidate, with
locale order modelled as code-point order (only the choice of the
canonical file, never its existence, depends on the order). -/
def firstSorted : List String → Option String
  | [] => none
  | x :: xs => some (xs.foldl (fun acc y => if strLeB acc y then acc else y) x)

/-- `findMediaFileForJob` (`src/api.ts:411`). -/
def findMediaFileForJob (jobId : String) (entries : List FsEntry) : Option String :=
  (firstSorted (findMediaCandidates entries)).map (fun n => jobDir jobId ++ "/" ++ n)

/-- The playlist post-exit scan (`src/api.ts:1107`): files with the
format's exact extension (case-sensitive here), no `.temp.` / `.part`
marker, nonzero size. -/
def playlistScan (fmt : FormatType) (entries : List FsEntry) : List String :=
  let ext := if fmt = FormatType.audio then ".mp3" else ".mp4"
  (entries.filter (fun e =>
    e.isFile && strEndsWith e.name ext &&
    !containsStr e.name ".temp." && !containsStr e.name ".part" &&
    e.size ≠ 0)).map (fun e => e.name)

/-! ### Progress extractor (playlist stdout loop, `src/api.ts:942`) -/

/-- Fields captured by `parseProgress` (`src/api.ts:642`); the 100%
variant clears speed and ETA. -/
structure ProgressData where
  percent : ℚ
  file_size : String
  speed : Option String
  eta : Option String
deriving DecidableEq, Repr

/-- `parseProgress`'s field updates on a match (`src/api.ts:646`). -/
def applyProgress (j : Job) (d : ProgressData) : Job :=
  { j with percent := some d.percent, file_size := some d.file_size,
           speed := d.speed, eta := d.eta }

/-- Result of matching one stdout line against the playlist loop's
regexes, in the code's order (`src/api.ts:963`–`1047`); the free-text
regex matching itself is the lexer and is abstracted into this record.
First-match-wins dispatch is preserved by `processPlaylistLine`. -/
structure LineMatch where
  progress : Option ProgressData := none
  trackBoundary : Option (Nat × Nat) := none
  destination : Option String := none
  extractAudio : Option String := none
  complete100 : Bool := false
  playlistName : Option String := none
  skipMarker : Bool := false
deriving DecidableEq, Repr

/-- Destination/ExtractAudio title bookkeeping (`src/api.ts:992`):
set `current_title` and append to `video_titles` if new (`?.push` is a
no-op when the list is absent). -/
def recordTitle (j : Job) (title : String) : Job :=
  if j.current_title ≠ some title then
    { j with current_title := some title,
             video_titles :=
               match j.video_titles with
               | some l => if title ∈ l then some l else some (l ++ [title])
               | none => none }
  else j

/-- Skip-marker bookkeeping (`src/api.ts:1042`): append the current
title to `skipped_videos` when the title is truthy and not yet listed. -/
def recordSkip (j : Job) : Job :=
  match j.current_title with
  | some s =>
      if s ≠ "" then
        { j with skipped_videos :=
            match j.skipped_videos with
            | some l => if s ∈ l then some l else some (l ++ [s])
            | none => none }
      else j
  | none => j

/-- One iteration of the playlist stdout line loop
(`src/api.ts:957`–`1047`): ordered, first-match-wins dispatch with the
exact write calls of each branch (`now` is the wall-clock instant the
line is handled). -/
def processPlaylistLine (j : Job) (p : Persist) (now : Int) (L : LineMatch) : Job × Persist :=
  match L.progress with
  | some d =>
      let j' := applyProgress j d
      (j', writeJobStatus j' false now p)
  | none =>
  match L.trackBoundary with
  | some (cur, tot) =>
      let j' := { j with current_video := some cur, total_videos := some tot,
                         current_title := some "", percent := some 0 }
      (j', writeJobStatus j' true now (writeMetaDoc j' p))
  | none =>
  match L.destination with
  | some title =>
      let j' := recordTitle j title
      (j', writeMetaDoc j' p)
  | none =>
  match L.extractAudio with
  | some title =>
      let j' := recordTitle j title
      (j', writeMetaDoc j' p)
  | none =>
  if L.complete100 then (j, p)
  else
  match L.playlistName with
  | some t =>
      let j' := { j with playlist_title := some t }
      (j', writeMetaDoc j' p)
  | none =>
  if L.skipMarker then
      let j' := recordSkip j
      (j', writeMetaDoc j' p)
  else (j, p)

/-! ### Post-exit completion logic -/

/-- Filename-sanitisation of the ZIP base name (`src/api.ts:1178`):
replace the invalid characters by `_`, collapse whitespace runs to one
space, trim. -/
def invalidFileChars : List Char := ['<', '>', ':', '"', '/', '\\', '|', '?', '*']

/-- Whitespace-run collapsing used by `sanitizeZipBase`; the flag says
whether a pending (already seen) whitespace run must be emitted as one
space before the next non-space character. -/
def collapseSpaces : Bool → List Char → List Char
  | _, [] => []
  | pend, c :: cs =>
      if c.isWhitespace then collapseSpaces true cs
      else (if pend then [' ', c] else [c]) ++ collapseSpaces false cs

def sanitizeZipBase (s : String) : String :=
  let repl := s.data.map (fun c => if c ∈ invalidFileChars then '_' else c)
  ⟨collapseSpaces false (repl.dropWhile Char.isWhitespace)⟩

/-- Failure message selection of the zero-file playlist branch
(`src/api.ts:1149`).  `stderrErrMsg` stands for the condensed last
stderr `ERROR` line (its regex cleaning of free text is not modelled). -/
def playlistFailError (stderrErrMsg : Option String) (code : Int) : String :=
  match stderrErrMsg with
  | some e => e
  | none =>
      if code ≠ 0 then "All videos in playlist were unavailable or blocked"
      else "No files downloaded from playlist"

/-- The tail of `downloadVideo` after both streams are drained
(`src/api.ts:810`–`842`): a non-zero exit code fails the job before any
directory scan; on exit code 0 the scan decides.  `stderrErrMsg` is the
condensed last stderr `ERROR` line, `stderrText` the raw stderr text. -/
def downloadVideoFinish (j : Job) (code : Int) (stderrErrMsg : Option String)
    (stderrText : String) (entries : List FsEntry) (now : Int) (p : Persist) :
    Job × Persist :=
  let j0 : Job := { j with hasProcess := false }
  if code ≠ 0 then
    let msg := match stderrErrMsg with
      | some e => e
      | none => if strTrim stderrText ≠ "" then strTrim stderrText else "Download failed"
    let j' := { j0 with status := JobStatus.failed, error := some msg }
    (j', writeJobStatus j' true now p)
  else
    match findMediaFileForJob j0.id entries with
    | none =>
        let j' := { j0 with status := JobStatus.failed, error := some "No files downloaded" }
        (j', writeJobStatus j' true now p)
    | some pth =>
        let j' := { j0 with status := JobStatus.completed, percent := some 100,
                            file_name := some (basename pth), file_path := some pth }
        (j', writeJobStatus j' true now (writeMetaDoc j' p))

/-- The tail of `downloadPlaylist` after both streams are drained
(`src/api.ts:1103`–`1266`): scan for produced files, fail on zero files
(whatever the exit code), otherwise archive (`zipOk` is the external
archiver collaborator's outcome; its failure fails the job), then mark
completed. -/
def downloadPlaylistFinish (j : Job) (code : Int) (stderrErrMsg : Option String)
    (entries : List FsEntry) (zipOk : Bool) (now : Int) (p : Persist) :
    Job × Persist :=
  let files := playlistScan j.format_type entries
  let j1 : Job := { j with hasProcess := false,
                           total_videos := some files.length,
                           current_video := some files.length }
  let p1 := writeMetaDoc j1 p
  if files.length = 0 then
    let j2 := { j1 with status := JobStatus.failed,
                        error := some (playlistFailError stderrErrMsg code) }
    (j2, writeJobStatus j2 true now p1)
  else if zipOk = false then
    let j2 := { j1 with status := JobStatus.failed,
                        error := some "Failed to create ZIP archive" }
    (j2, writeJobStatus j2 true now p1)
  else
    let zipName := sanitizeZipBase (jsOrS j1.playlist_title "playlist") ++ ".zip"
    let j2 := { j1 with status := JobStatus.completed,
                        file_name := some zipName,
                        file_path := some (jobDir j1.id ++ "/" ++ zipName),
                        message := some ("Downloaded " ++ toString files.length ++ " videos") }
    let p2 := writeJobStatus j2 true now (writeMetaDoc j2 p1)
    let j3 := if (j2.skipped_videos.getD []).length ≠ 0 then
        { j2 with message := some ("Downloaded " ++ toString files.length ++ " videos ("
                    ++ toString (j2.skipped_videos.getD []).length ++ " unavailable)") }
      else j2
    (j3, p2)

/-! ### Queue API handlers -/

/-- HTTP outcome of a queue-API handler. -/
inductive ApiResult
  | ok
  | notFound
  | badRequest
deriving DecidableEq, Repr

structure CancelOut where
  result : ApiResult
  job : Option Job
  killed : Bool
  dirDeleted : Bool
  persist : Persist
deriving DecidableEq, Repr

/-- `POST /queue/:jobId/cancel` (`src/api.ts:1998`), after CSRF: 404 on
an unknown id; otherwise — with no status check — kill the process if a
handle exists, set `failed` / "Cancelled by user", force a status
write, then delete the job directory if it exists (`dirExists`). -/
def cancelJob (found : Option Job) (dirExists : Bool) (now : Int) (p : Persist) : CancelOut :=
  match found with
  | none => { result := ApiResult.notFound, job := none, killed := false,
              dirDeleted := false, persist := p }
  | some job =>
      let j' := { job with status := JobStatus.failed, error := some "Cancelled by user",
                           hasProcess := false }
      { result := ApiResult.ok, job := some j', killed := job.hasProcess,
        dirDeleted := dirExists, persist := writeJobStatus j' true now p }

structure RemoveOut where
  result : ApiResult
  removedFromStore : Bool
  dirDeleted : Bool
deriving DecidableEq, Repr

/-- `DELETE /queue/:jobId` (`src/api.ts:2084`), after CSRF: 404 on an
unknown id; otherwise — with no terminal-status check — delete the
directory if present and drop the in-memory record. -/
def removeJob (found : Option Job) (dirExists : Bool) : RemoveOut :=
  match found with
  | none => { result := ApiResult.notFound, removedFromStore := false, dirDeleted := false }
  | some _ => { result := ApiResult.ok, removedFromStore := true, dirDeleted := dirExists }

structure ResumeOut where
  result : ApiResult
  job : Option Job
  persist : Persist
  dispatched : Option (Bool × Bool)
deriving DecidableEq, Repr

/-- `POST /queue/:jobId/resume` (`src/api.ts:2038`), after CSRF: 404 on
an unknown id, 400 (untouched) unless `interrupted`; else reset to
`pending`, clear the error, force a status write and dispatch the
matching download with the resume flag.  `dispatched = some (isPlaylist,
resumeFlag)`. -/
def resumeJob (found : Option Job) (now : Int) (p : Persist) : ResumeOut :=
  match found with
  | none => { result := ApiResult.notFound, job := none, persist := p, dispatched := none }
  | some job =>
      if job.status ≠ JobStatus.interrupted then
        { result := ApiResult.badRequest, job := some job, persist := p, dispatched := none }
      else
        let j' := { job with status := JobStatus.pending, error := none }
        { result := ApiResult.ok, job := some j',
          persist := writeJobStatus j' true now p,
          dispatched := some (job.playlist, true) }

/-! ### Startup recovery (`rebuildQueueFromDisk`, `src/api.ts:436`) -/

/-- The parsed `status.json` of one directory.  `status`/`progress` are
`none` when the field is absent or not of the expected JSON type. -/
structure StatusRaw where
  status : Option String := none
  progress : Option ℚ := none
deriving DecidableEq, Repr

/-- The parsed `metadata.json` of one directory, same conventions.
`playlist` is the JS truthiness of the stored value; `video_titles` /
`skipped_videos` hold the string elements of the stored array when the
field is an array. -/
structure MetaRaw where
  id : Option String := none
  url : Option String := none
  format_type : Option String := none
  quality : Option String := none
  playlist : Bool := false
  created_at : Option Int := none
  file_path : Option String := none
  playlist_title : Option String := none
  total_videos : Option Nat := none
  current_video : Option Nat := none
  video_titles : Option (List String) := none
  skipped_videos : Option (List String) := none
deriving DecidableEq, Repr

/-- The completed-job validation step of recovery (`src/api.ts:503`):
when the claimed output path is absent or no longer exists, scan the
directory; downgrade to `failed` / "Output file missing after restart"
when the scan also fails. -/
def completedValidation (j : Job) (fileExists : String → Bool) (entries : List FsEntry) : Job :=
  if j.status = JobStatus.completed then
    if (match j.file_path with
        | none => true
        | some fp => !fileExists fp) then
      match findMediaFileForJob j.id entries with
      | some pth => { j with file_path := some pth, file_name := some (basename pth) }
      | none => { j with status := JobStatus.failed,
                         error := some "Output file missing after restart" }
    else j
  else j

/-- The `Job` record built from the two parsed documents of one
directory, before the completed-validation and interrupted
reclassification steps (`src/api.ts:473`–`500`). -/
def baseJobOfRaw (dirName : String) (meta : MetaRaw) (status : StatusRaw) (now : Int) : Job :=
  let metaFilePath : Option String :=
    match meta.file_path with
    | some s => if s ≠ "" then some s else none
    | none => none
  { id := match meta.id with
          | some s => if strTrim s ≠ "" then s else dirName
          | none => dirName
    status := fromStoredStatus (status.status.getD "failed")
    url := meta.url.getD ""
    format_type := if meta.format_type = some "video" then FormatType.video
                   else FormatType.audio
    quality := match meta.quality with
               | some s => if s ≠ "" then s else "best"
               | none => "best"
    playlist := meta.playlist
    created_at := meta.created_at.getD now
    file_path := metaFilePath
    file_name := metaFilePath.map basename
    percent := status.progress
    playlist_title := match meta.playlist_title with
                      | some s => if s ≠ "" then some s else none
                      | none => none
    total_videos := meta.total_videos
    current_video := meta.current_video
    video_titles := meta.video_titles
    skipped_videos := meta.skipped_videos }

/-- The loop body of `rebuildQueueFromDisk` for one job directory
(`src/api.ts:449`–`524`).  `meta? = none` models an unreadable /
unparsable / non-object `metadata.json` (the `continue`); `status? =
none` likewise for `status.json` (replaced by the default
`{status: "failed", progress: 0}` document). -/
def loadJobFromDir (dirName : String) (meta? : Option MetaRaw) (status? : Option StatusRaw)
    (now : Int) (fileExists : String → Bool) (entries : List FsEntry) : Option Job :=
  match meta? with
  | none => none
  | some meta =>
      let status : StatusRaw :=
        match status? with
        | some st => st
        | none => { status := some "failed", progress := some 0 }
      let storedStatus : String := status.status.getD "failed"
      let j1 := completedValidation (baseJobOfRaw dirName meta status now) fileExists entries
      some (if storedStatus = "downloading" then { j1 with status := JobStatus.interrupted }
            else j1)

/-- The raw view of a written metadata document: what
`rebuildQueueFromDisk` parses back from `writeJobMetadata`'s output. -/
def metaDocToRaw (d : MetaDoc) : MetaRaw :=
  { id := some d.id
    url := some d.url
    format_type := some (match d.format_type with
                         | FormatType.audio => "audio"
                         | FormatType.video => "video")
    quality := some d.quality
    playlist := d.playlist
    created_at := some d.created_at
    file_path := some d.file_path
    playlist_title := some d.playlist_title
    total_videos := some d.total_videos
    current_video := some d.current_video
    video_titles := some d.video_titles
    skipped_videos := some d.skipped_videos }

/-- The raw view of a written status document. -/
def statusDocToRaw (s : StatusDoc) : StatusRaw :=
  { status := some s.status.str, progress := some s.progress }

/-- Round trip of one job through the persistence layer: write its two
documents, reload the directory through the recovery path. -/
def reloadAfterWrite (j : Job) (now : Int) (fileExists : String → Bool)
    (entries : List FsEntry) : Option Job :=
  loadJobFromDir j.id (some (metaDocToRaw (writeJobMetadata j)))
    (some (statusDocToRaw (mkStatusDoc j))) now fileExists entries

/-! ### Spec-side definition for the progress-clamping claim -/

/-- The persisted progress value as the specification words it: the
clamp `min(100, max(0, percent))` when `percent` is set, else — when
track counts exist — the clamped rounded ratio
`currentTrack/totalTracks*100`, else 0 (with `x / 0 = 0`, Lean's
division makes the degenerate zero-count case total; it coincides with
the code's extra truthiness guard).  To be compared with
`getJobProgress`, which is translated from the source. -/
def getJobProgressSpec (j : Job) : ℚ :=
  match j.percent with
  | some p => min 100 (max 0 p)
  | none =>
    match j.total_videos, j.current_video with
    | some t, some c => min 100 (max 0 ((jsRound ((c : ℚ) / (t : ℚ) * 100) : ℚ)))
    | _, _ => 0

/-- The fields of a job the round-trip claim compares: id, url, format,
quality, and the playlist fields (flag, title, counts, title lists). -/
def coreFields (j : Job) :
    String × String × FormatType × String × Bool × Option String ×
    Option Nat × Option Nat × Option (List String) × Option (List String) :=
  (j.id, j.url, j.format_type, j.quality, j.playlist, j.playlist_title,
   j.total_videos, j.current_video, j.video_titles, j.skipped_videos)

/-! ### Concrete sample inputs for witnesses and counterexamples -/

/-- A freshly submitted audio job, as `POST /download` creates it
(`src/api.ts:2221`): optional fields all absent. -/
def baseJob : Job :=
  { id := "job-1", status := JobStatus.pending, url := "https://youtu.be/abc",
    format_type := FormatType.audio, quality := "best", playlist := false,
    created_at := 0 }

/-- A playlist job mid-run, with one skipped title accumulated. -/
def runningPlaylistJob : Job :=
  { baseJob with id := "job-pl", status := JobStatus.playlist, playlist := true,
                 total_videos := some 3, current_video := some 2,
                 current_title := some "02 - B", percent := some 40,
                 video_titles := some ["01 - A", "02 - B"],
                 skipped_videos := some ["00 - Z"], hasProcess := true }

/-- A terminal (completed) job. -/
def doneJob : Job :=
  { baseJob with id := "job-done", status := JobStatus.completed,
                 percent := some 100, file_path := some "downloads/job-done/a.mp3",
                 file_name := some "a.mp3" }

/-- An interrupted job, as startup recovery produces it. -/
def interruptedJob : Job :=
  { baseJob with id := "job-int", status := JobStatus.interrupted }

/-- An active single-download job. -/
def processingJob : Job :=
  { baseJob with id := "job-proc", status := JobStatus.processing, hasProcess := true }

/-- A directory holding exactly one well-formed media file. -/
def oneFileEntries : List FsEntry :=
  [{ name := "01 - Artist - Song.mp3", isFile := true, size := 512 }]

/-- The empty persisted state. -/
def p0 : Persist := {}

/-- A file-existence oracle for a filesystem with no files. -/
def noFile : String → Bool := fun _ => false

/-- A file-existence oracle for a filesystem where every path exists. -/
def anyFile : String → Bool := fun _ => true

/-- A parsed metadata document with every optional field absent. -/
def emptyMeta : MetaRaw := {}

/-- A parsed metadata document claiming an output path. -/
def metaWithPath : MetaRaw := { file_path := some "downloads/job-1/a.mp3" }

/-- A stdout line matching only the playlist-name rule. -/
def playlistNameLine : LineMatch := { playlistName := some "EDM" }

/-- A stdout line matching only the track-boundary rule ("Downloading
item 2 of 10"). -/
def trackLine : LineMatch := { trackBoundary := some (2, 10) }

/-- A stdout line matching only the numeric progress rule. -/
def progressLine : LineMatch :=
  { progress := some { percent := 50, file_size := "9.8MiB",
                       speed := some "1MiB/s", eta := some "00:10" } }

/-! ## Helper lemmas -/

lemma clamp_comm (x : ℚ) : max 0 (min 100 x) = min 100 (max 0 x) := by
  rw [max_min_distrib_left]
  norm_num

lemma clamp_nonneg (x : ℚ) : 0 ≤ max 0 (min 100 x) := le_max_left _ _

lemma clamp_le_100 (x : ℚ) : max 0 (min 100 x) ≤ 100 :=
  max_le (by norm_num) (min_le_left _ _)

lemma getJobProgress_eq_clamp (j : Job) :
    getJobProgress j = 0 ∨ ∃ x, getJobProgress j = max 0 (min 100 x) := by
  unfold getJobProgress
  rcases j.percent with _ | p
  · rcases j.total_videos with _ | t
    · exact Or.inl rfl
    · rcases j.current_video with _ | c
      · exact Or.inl rfl
      · dsimp only
        by_cases h : t ≠ 0 ∧ c ≠ 0
        · exact Or.inr ⟨_, by rw [if_pos h]⟩
        · exact Or.inl (by rw [if_neg h])
  · exact Or.inr ⟨p, rfl⟩

lemma writeJobStatus_forced (j : Job) (now : Int) (p : Persist) :
    writeJobStatus j true now p =
      { p with lastWrite := now, statusDoc := some (mkStatusDoc j) } := by
  simp [writeJobStatus]

lemma baseJobOfRaw_status (d : String) (meta : MetaRaw) (st : StatusRaw) (now : Int) :
    (baseJobOfRaw d meta st now).status = fromStoredStatus (st.status.getD "failed") := rfl

lemma baseJobOfRaw_file_path (d : String) (meta : MetaRaw) (st : StatusRaw) (now : Int) :
    (baseJobOfRaw d meta st now).file_path =
      (match meta.file_path with
       | some s => if s ≠ "" then some s else none
       | none => none) := rfl

lemma loadJobFromDir_downloading (d : String) (meta : MetaRaw) (pr : Option ℚ) (now : Int)
    (fe : String → Bool) (entries : List FsEntry) :
    loadJobFromDir d (some meta) (some { status := some "downloading", progress := pr })
        now fe entries =
      some { completedValidation
               (baseJobOfRaw d meta { status := some "downloading", progress := pr } now)
               fe entries with status := JobStatus.interrupted } := by
  simp only [loadJobFromDir, Option.getD_some]
  rw [if_pos trivial]

lemma loadJobFromDir_notDownloading (d : String) (meta : MetaRaw) (pr : Option ℚ)
    (now : Int) (fe : String → Bool) (entries : List FsEntry) (s : String)
    (hs : s ≠ "downloading") :
    loadJobFromDir d (some meta) (some { status := some s, progress := pr }) now fe entries =
      some (completedValidation
              (baseJobOfRaw d meta { status := some s, progress := pr } now) fe entries) := by
  simp only [loadJobFromDir, Option.getD_some]
  rw [if_neg hs]

lemma completedValidation_of_ne (j : Job) (fe : String → Bool) (entries : List FsEntry)
    (h : j.status ≠ JobStatus.completed) : completedValidation j fe entries = j := by
  simp [completedValidation, h]

lemma findMediaFileForJob_nil (jid : String) (entries : List FsEntry)
    (h : findMediaCandidates entries = []) : findMediaFileForJob jid entries = none := by
  simp [findMediaFileForJob, h, firstSorted]

lemma findMediaFileForJob_cons (jid : String) (entries : List FsEntry) (c : String)
    (cs : List String) (h : findMediaCandidates entries = c :: cs) :
    findMediaFileForJob jid entries =
      some (jobDir jid ++ "/" ++ cs.foldl (fun acc y => if strLeB acc y then acc else y) c) := by
  simp [findMediaFileForJob, h, firstSorted]

lemma completedValidation_missing (j : Job) (fe : String → Bool) (entries : List FsEntry)
    (hst : j.status = JobStatus.completed)
    (hfp : (match j.file_path with | none => true | some fp => !fe fp) = true)
    (hscan : findMediaCandidates entries = []) :
    completedValidation j fe entries =
      { j with status := JobStatus.failed,
               error := some "Output file missing after restart" } := by
  unfold completedValidation
  rw [if_pos hst, if_pos hfp, findMediaFileForJob_nil j.id entries hscan]

lemma completedValidation_scan (j : Job) (fe : String → Bool) (entries : List FsEntry)
    (hst : j.status = JobStatus.completed)
    (hfp : (match j.file_path with | none => true | some fp => !fe fp) = true)
    (pth : String) (hscan : findMediaFileForJob j.id entries = some pth) :
    completedValidation j fe entries =
      { j with file_path := some pth, file_name := some (basename pth) } := by
  unfold completedValidation
  rw [if_pos hst, if_pos hfp, hscan]

lemma completedValidation_ok (j : Job) (fe : String → Bool) (entries : List FsEntry)
    (hst : j.status = JobStatus.completed)
    (hfp : (match j.file_path with | none => true | some fp => !fe fp) = false) :
    completedValidation j fe entries = j := by
  unfold completedValidation
  rw [if_pos hst, if_neg (by simp [hfp])]

lemma loadJobFromDir_eq (d : String) (meta : MetaRaw) (st : StatusRaw) (now : Int)
    (fe : String → Bool) (entries : List FsEntry) :
    loadJobFromDir d (some meta) (some st) now fe entries =
      some (if st.status.getD "failed" = "downloading"
            then { completedValidation (baseJobOfRaw d meta st now) fe entries with
                   status := JobStatus.interrupted }
            else completedValidation (baseJobOfRaw d meta st now) fe entries) := rfl

lemma loadJobFromDir_noStatus (d : String) (meta : MetaRaw) (now : Int)
    (fe : String → Bool) (entries : List FsEntry) :
    loadJobFromDir d (some meta) none now fe entries =
      loadJobFromDir d (some meta) (some { status := some "failed", progress := some 0 })
        now fe entries := rfl

lemma writeJobStatus_throttled (j : Job) (now : Int) (p : Persist)
    (h : now - p.lastWrite < 1500) : writeJobStatus j false now p = p := by
  simp [writeJobStatus, h]

lemma writeJobStatus_unthrottled (j : Job) (now : Int) (p : Persist)
    (h : ¬ now - p.lastWrite < 1500) :
    writeJobStatus j false now p =
      { p with lastWrite := now, statusDoc := some (mkStatusDoc j) } := by
  simp [writeJobStatus, h]

lemma completedValidation_coreFields (j : Job) (fe : String → Bool)
    (entries : List FsEntry) :
    coreFields (completedValidation j fe entries) = coreFields j := by
  unfold completedValidation
  split
  · split
    · split <;> rfl
    · rfl
  · rfl

lemma coreFields_interrupted (j : Job) :
    coreFields { j with status := JobStatus.interrupted } = coreFields j := rfl

lemma fromStoredStatus_default (s : String) (h1 : s ≠ "queued") (h2 : s ≠ "downloading")
    (h3 : s ≠ "complete") (h4 : s ≠ "failed") (h5 : s ≠ "interrupted") :
    fromStoredStatus s = JobStatus.failed := by
  unfold fromStoredStatus
  rw [if_neg h1, if_neg h2, if_neg h3, if_neg h4, if_neg h5]

lemma roundTripFormat (f : FormatType) :
    (if (some (match f with
               | FormatType.audio => "audio"
               | FormatType.video => "video") : Option String) = some "video"
     then FormatType.video else FormatType.audio) = f := by
  cases f
  · rw [if_neg (by decide : ¬ ((some "audio" : Option String) = some "video"))]
  · rw [if_pos rfl]

lemma roundTripTitle (o : Option String) (h : o ≠ some "") :
    (if (o.getD "") ≠ "" then some (o.getD "") else none) = o := by
  cases o with
  | none => simp
  | some s =>
      have hs : s ≠ "" := fun hc => h (by rw [hc])
      simp [hs]

/-! ## Claims -/

/-- Claim C9 (confirmed): the persisted progress value is
`getJobProgress`, which is always within [0, 100] and agrees with the
spec's clamped formula (`getJobProgressSpec`): the clamp of `percent`
when set, else the clamped rounded track ratio when the track counts
exist, else 0. -/
theorem C9_progress_clamped (j : Job) :
    (mkStatusDoc j).progress = getJobProgress j ∧
    getJobProgress j = getJobProgressSpec j ∧
    0 ≤ getJobProgress j ∧ getJobProgress j ≤ 100 := by
  refine ⟨rfl, ?_, ?_, ?_⟩
  · unfold getJobProgress getJobProgressSpec
    rcases j.percent with _ | p
    · rcases j.total_videos with _ | t
      · rfl
      · rcases j.current_video with _ | c
        · rfl
        · dsimp only
          by_cases h : t ≠ 0 ∧ c ≠ 0
          · rw [if_pos h]; exact clamp_comm _
          · rw [if_neg h]
            have hz : ((c : ℚ) / (t : ℚ) * 100) = 0 := by
              rcases not_and_or.mp h with h0 | h0 <;> rw [not_not] at h0 <;> subst h0 <;> simp
            have hr : jsRound 0 = 0 := by
              unfold jsRound
              rw [zero_add, Int.floor_eq_zero_iff]
              constructor <;> norm_num
            rw [hz, hr]
            norm_num
    · exact clamp_comm p
  · rcases getJobProgress_eq_clamp j with h | ⟨x, h⟩
    · rw [h]
    · rw [h]; exact clamp_nonneg x
  · rcases getJobProgress_eq_clamp j with h | ⟨x, h⟩
    · rw [h]; norm_num
    · rw [h]; exact clamp_le_100 x

/-- Claim C3 is false as stated: a known job that is *not* active (here
a completed one) is not rejected — the cancel handler cancels it all
the same, setting `failed` / "Cancelled by user" and deleting its
directory. -/
theorem C3_counterexample :
    doneJob.status = JobStatus.completed ∧
    (cancelJob (some doneJob) true 0 p0).result = ApiResult.ok ∧
    (cancelJob (some doneJob) true 0 p0).job =
      some { doneJob with status := JobStatus.failed,
                          error := some "Cancelled by user", hasProcess := false } ∧
    (cancelJob (some doneJob) true 0 p0).dirDeleted = true :=
  ⟨rfl, rfl, rfl, rfl⟩

/-- Claim C3 (amended): the cancel handler checks only that the job id
is known, not that the job is active.  On an unknown id it is a 404
no-op; on *any* known job it signals the process when a handle exists,
sets status `failed` with message "Cancelled by user", force-writes the
status document, and deletes the job directory when it exists. -/
theorem C3_cancel_policy (now : Int) (p : Persist) (d : Bool) (j : Job) :
    cancelJob none d now p =
      { result := ApiResult.notFound, job := none, killed := false,
        dirDeleted := false, persist := p } ∧
    (cancelJob (some j) d now p).result = ApiResult.ok ∧
    (cancelJob (some j) d now p).job =
      some { j with status := JobStatus.failed, error := some "Cancelled by user",
                    hasProcess := false } ∧
    (cancelJob (some j) d now p).killed = j.hasProcess ∧
    (cancelJob (some j) d now p).dirDeleted = d ∧
    (cancelJob (some j) d now p).persist.statusDoc =
      some (mkStatusDoc { j with status := JobStatus.failed,
                                 error := some "Cancelled by user",
                                 hasProcess := false }) := by
  refine ⟨rfl, rfl, rfl, rfl, rfl, ?_⟩
  show (writeJobStatus _ true now p).statusDoc = _
  rw [writeJobStatus_forced]

/-- Claim C4: the remove handler's own comment says "completed/failed
only", but the code performs no status check — evaluated on a job with
status `processing`, it deletes the directory and the in-memory record
and reports success instead of rejecting. -/
theorem C4_remove_no_status_check :
    processingJob.status = JobStatus.processing ∧
    removeJob (some processingJob) true =
      { result := ApiResult.ok, removedFromStore := true, dirDeleted := true } :=
  ⟨rfl, rfl⟩

/-- Claim C5 (confirmed): resume succeeds exactly on `interrupted`
jobs: unknown id → 404 no-op; any other status → 400 with the job
record and persisted state untouched and nothing dispatched;
`interrupted` → status reset to `pending`, error cleared, status
force-written, and the matching download dispatched with the resume
("continue") flag. -/
theorem C5_resume_iff_interrupted (now : Int) (p : Persist) (j : Job) :
    resumeJob none now p =
      { result := ApiResult.notFound, job := none, persist := p, dispatched := none } ∧
    (j.status ≠ JobStatus.interrupted →
      resumeJob (some j) now p =
        { result := ApiResult.badRequest, job := some j, persist := p,
          dispatched := none }) ∧
    (j.status = JobStatus.interrupted →
      resumeJob (some j) now p =
        { result := ApiResult.ok,
          job := some { j with status := JobStatus.pending, error := none },
          persist := writeJobStatus { j with status := JobStatus.pending, error := none }
                       true now p,
          dispatched := some (j.playlist, true) }) := by
  refine ⟨rfl, fun h => ?_, fun h => ?_⟩
  · simp [resumeJob, h]
  · simp [resumeJob, h]

/-- Claim C1 is false as stated: with one well-formed produced file the
playlist job can still end `failed` — when the external archiver step
fails (`zipOk = false`), the job is failed despite the non-empty scan. -/
theorem C1_counterexample :
    (playlistScan runningPlaylistJob.format_type oneFileEntries).length = 1 ∧
    (downloadPlaylistFinish runningPlaylistJob 1 none oneFileEntries false 0 p0).1.status =
      JobStatus.failed := by
  constructor
  · decide
  · rfl

/-- Claim C1 (amended): after the playlist process exits, the scan of
the job directory decides: zero candidate files fail the job whatever
the exit code; at least one candidate file completes the job — for any
exit code — *provided the archiving step succeeds* (archiver failure
fails the job), with the accumulated `skipped_videos` kept on the job
and recorded in the metadata document. -/
theorem C1_playlist_completion_policy (j : Job) (code : Int) (e : Option String)
    (entries : List FsEntry) (zipOk : Bool) (now : Int) (p : Persist) :
    (playlistScan j.format_type entries = [] →
      (downloadPlaylistFinish j code e entries zipOk now p).1.status = JobStatus.failed) ∧
    (playlistScan j.format_type entries ≠ [] → zipOk = true →
      (downloadPlaylistFinish j code e entries zipOk now p).1.status = JobStatus.completed ∧
      (downloadPlaylistFinish j code e entries zipOk now p).1.skipped_videos =
        j.skipped_videos ∧
      ∃ md, (downloadPlaylistFinish j code e entries zipOk now p).2.metaDoc = some md ∧
        md.skipped_videos = j.skipped_videos.getD []) ∧
    (playlistScan j.format_type entries ≠ [] → zipOk = false →
      (downloadPlaylistFinish j code e entries zipOk now p).1.status = JobStatus.failed ∧
      (downloadPlaylistFinish j code e entries zipOk now p).1.error =
        some "Failed to create ZIP archive") := by
  refine ⟨fun h => ?_, fun h hz => ?_, fun h hz => ?_⟩
  · have h0 : (playlistScan j.format_type entries).length = 0 := by rw [h]; rfl
    simp only [downloadPlaylistFinish]
    rw [if_pos h0]
  · have h0 : ¬ (playlistScan j.format_type entries).length = 0 := by
      simpa [List.length_eq_zero] using h
    subst hz
    simp only [downloadPlaylistFinish]
    rw [if_neg h0, if_neg (by decide : ¬ (true = false))]
    refine ⟨?_, ?_, ?_⟩
    · split <;> rfl
    · split <;> rfl
    · exact ⟨_, rfl, rfl⟩
  · have h0 : ¬ (playlistScan j.format_type entries).length = 0 := by
      simpa [List.length_eq_zero] using h
    subst hz
    simp only [downloadPlaylistFinish]
    rw [if_neg h0, if_pos trivial]
    exact ⟨rfl, rfl⟩

/-- Witness for C1 at concrete inputs: one produced file and a
successful archive complete the playlist job even on exit code 1; an
empty directory fails it. -/
theorem C1_witness :
    (downloadPlaylistFinish runningPlaylistJob 1 none oneFileEntries true 0 p0).1.status =
      JobStatus.completed ∧
    (downloadPlaylistFinish runningPlaylistJob 1 none [] true 0 p0).1.status =
      JobStatus.failed :=
  ⟨((C1_playlist_completion_policy runningPlaylistJob 1 none oneFileEntries true 0 p0).2.1
      (by decide) rfl).1,
   (C1_playlist_completion_policy runningPlaylistJob 1 none [] true 0 p0).1 rfl⟩

/-- Claim C2 is false as stated: for a single (non-playlist) job the
exit code *does* determine failure — with one well-formed candidate
file in the directory and exit code 1, `downloadVideo` fails the job
without consulting the scan. -/
theorem C2_counterexample :
    findMediaFileForJob processingJob.id oneFileEntries ≠ none ∧
    (downloadVideoFinish processingJob 1 none "" oneFileEntries 0 p0).1.status =
      JobStatus.failed := by
  constructor
  · decide
  · rfl

/-- Claim C2 (amended): the scan-decides completion policy holds for
single jobs only on exit code 0: a non-zero exit code fails the job
before any directory scan; with exit code 0 the job completes (with
`percent` 100 and the canonical output file) exactly when the scan
finds at least one candidate, and fails with "No files downloaded"
otherwise. -/
theorem C2_single_completion_policy (j : Job) (e : Option String) (st : String)
    (entries : List FsEntry) (now : Int) (p : Persist) (code : Int) :
    (code ≠ 0 →
      (downloadVideoFinish j code e st entries now p).1.status = JobStatus.failed) ∧
    (code = 0 → findMediaFileForJob j.id entries = none →
      (downloadVideoFinish j code e st entries now p).1.status = JobStatus.failed ∧
      (downloadVideoFinish j code e st entries now p).1.error =
        some "No files downloaded") ∧
    (code = 0 → ∀ pth, findMediaFileForJob j.id entries = some pth →
      (downloadVideoFinish j code e st entries now p).1.status = JobStatus.completed ∧
      (downloadVideoFinish j code e st entries now p).1.percent = some 100 ∧
      (downloadVideoFinish j code e st entries now p).1.file_path = some pth) := by
  refine ⟨fun h => ?_, fun h hm => ?_, fun h pth hm => ?_⟩
  · simp only [downloadVideoFinish]
    rw [if_pos h]
  · subst h
    simp only [downloadVideoFinish]
    rw [if_neg (by norm_num : ¬ ((0 : Int) ≠ 0)), hm]
    exact ⟨rfl, rfl⟩
  · subst h
    simp only [downloadVideoFinish]
    rw [if_neg (by norm_num : ¬ ((0 : Int) ≠ 0)), hm]
    exact ⟨rfl, rfl, rfl⟩

/-- Witness for C2 at concrete inputs: exit code 0 with one candidate
file completes; exit code 0 with an empty directory fails. -/
theorem C2_witness :
    (downloadVideoFinish processingJob 0 none "" oneFileEntries 0 p0).1.status =
      JobStatus.completed ∧
    (downloadVideoFinish processingJob 0 none "" [] 0 p0).1.status = JobStatus.failed :=
  ⟨((C2_single_completion_policy processingJob none "" oneFileEntries 0 p0 0).2.2 rfl
      (jobDir "job-proc" ++ "/" ++ "01 - Artist - Song.mp3") (by decide)).1,
   ((C2_single_completion_policy processingJob none "" [] 0 p0 0).2.1 rfl rfl).1⟩

/-- Claim C6 (confirmed): during recovery (purge disabled), a stored
status "downloading" loads as `interrupted`; a stored "complete" whose
claimed output path is absent or no longer exists and whose directory
scan yields nothing loads as `failed` with "Output file missing after
restart"; a stored "complete" whose claimed path exists — or for which
the scan finds a replacement — stays `completed`. -/
theorem C6_recovery_classification (d : String) (meta : MetaRaw) (pr : Option ℚ)
    (now : Int) (fe : String → Bool) (entries : List FsEntry) :
    (loadJobFromDir d (some meta) (some { status := some "downloading", progress := pr })
        now fe entries).map Job.status = some JobStatus.interrupted ∧
    (meta.file_path = none → findMediaCandidates entries = [] →
      (loadJobFromDir d (some meta) (some { status := some "complete", progress := pr })
          now fe entries).map Job.status = some JobStatus.failed ∧
      (loadJobFromDir d (some meta) (some { status := some "complete", progress := pr })
          now fe entries).map Job.error =
        some (some "Output file missing after restart")) ∧
    (∀ fp, meta.file_path = some fp → fp ≠ "" → fe fp = false →
      findMediaCandidates entries = [] →
      (loadJobFromDir d (some meta) (some { status := some "complete", progress := pr })
          now fe entries).map Job.status = some JobStatus.failed ∧
      (loadJobFromDir d (some meta) (some { status := some "complete", progress := pr })
          now fe entries).map Job.error =
        some (some "Output file missing after restart")) ∧
    (∀ fp, meta.file_path = some fp → fp ≠ "" → fe fp = true →
      (loadJobFromDir d (some meta) (some { status := some "complete", progress := pr })
          now fe entries).map Job.status = some JobStatus.completed) ∧
    (∀ c cs, meta.file_path = none → findMediaCandidates entries = c :: cs →
      (loadJobFromDir d (some meta) (some { status := some "complete", progress := pr })
          now fe entries).map Job.status = some JobStatus.completed) := by
  have hnd : ("complete" : String) ≠ "downloading" := by decide
  have hst : (baseJobOfRaw d meta { status := some "complete", progress := pr } now).status =
      JobStatus.completed := by
    rw [baseJobOfRaw_status]
    show fromStoredStatus "complete" = JobStatus.completed
    decide
  refine ⟨?_, fun h1 h2 => ?_, fun fp h1 hne hfe h2 => ?_, fun fp h1 hne hfe => ?_,
          fun c cs h1 h2 => ?_⟩
  · rw [loadJobFromDir_downloading]
    rfl
  · have hfp : (match (baseJobOfRaw d meta { status := some "complete", progress := pr }
          now).file_path with
        | none => true | some fp => !fe fp) = true := by
      rw [baseJobOfRaw_file_path, h1]
    rw [loadJobFromDir_notDownloading d meta pr now fe entries "complete" hnd,
        completedValidation_missing _ fe entries hst hfp h2]
    exact ⟨rfl, rfl⟩
  · have hfp : (match (baseJobOfRaw d meta { status := some "complete", progress := pr }
          now).file_path with
        | none => true | some fp => !fe fp) = true := by
      rw [baseJobOfRaw_file_path, h1]
      simp [hne, hfe]
    rw [loadJobFromDir_notDownloading d meta pr now fe entries "complete" hnd,
        completedValidation_missing _ fe entries hst hfp h2]
    exact ⟨rfl, rfl⟩
  · have hfp : (match (baseJobOfRaw d meta { status := some "complete", progress := pr }
          now).file_path with
        | none => true | some fp => !fe fp) = false := by
      rw [baseJobOfRaw_file_path, h1]
      simp [hne, hfe]
    rw [loadJobFromDir_notDownloading d meta pr now fe entries "complete" hnd,
        completedValidation_ok _ fe entries hst hfp]
    rw [Option.map_some', baseJobOfRaw_status]
    rfl
  · have hfp : (match (baseJobOfRaw d meta { status := some "complete", progress := pr }
          now).file_path with
        | none => true | some fp => !fe fp) = true := by
      rw [baseJobOfRaw_file_path, h1]
    rw [loadJobFromDir_notDownloading d meta pr now fe entries "complete" hnd,
        completedValidation_scan _ fe entries hst hfp _
          (findMediaFileForJob_cons _ entries c cs h2)]
    rfl

/-- Witness for C6 at concrete inputs: "downloading" recovers as
interrupted; "complete" with no surviving artifact recovers as failed;
"complete" with an existing claimed path stays completed. -/
theorem C6_witness :
    (loadJobFromDir "dir" (some emptyMeta)
        (some { status := some "downloading", progress := none }) 0 noFile []).map
        Job.status = some JobStatus.interrupted ∧
    (loadJobFromDir "dir" (some emptyMeta)
        (some { status := some "complete", progress := none }) 0 noFile []).map
        Job.status = some JobStatus.failed ∧
    (loadJobFromDir "dir" (some metaWithPath)
        (some { status := some "complete", progress := none }) 0 anyFile []).map
        Job.status = some JobStatus.completed :=
  ⟨(C6_recovery_classification "dir" emptyMeta none 0 noFile []).1,
   ((C6_recovery_classification "dir" emptyMeta none 0 noFile []).2.1 rfl rfl).1,
   (C6_recovery_classification "dir" metaWithPath none 0 anyFile []).2.2.2.1
     "downloads/job-1/a.mp3" rfl (by decide) rfl⟩

/-- Claim C7 is false as stated: round-tripping a freshly submitted job
(whose `total_videos` is absent) through write + recovery yields a
record whose `totalTracks` is 0, not absent — the reloaded record is
not equal on the claimed field list. -/
theorem C7_counterexample :
    (reloadAfterWrite baseJob 0 noFile []).map Job.total_videos = some (some 0) ∧
    baseJob.total_videos = none := by
  constructor
  · decide
  · rfl

/-- Claim C7 (amended): writing a job's two documents and reloading the
directory through the recovery path preserves id, url, format, quality
(when nonempty), the playlist flag and the playlist title (when not the
empty string) exactly; the optional counters and title lists reload as
their written defaults (`0` / `[]`) — so they round-trip exactly
whenever they were present. -/
theorem C7_roundtrip_normalized (j : Job) (now : Int) (fe : String → Bool)
    (entries : List FsEntry) (hq : j.quality ≠ "") (hpt : j.playlist_title ≠ some "") :
    (reloadAfterWrite j now fe entries).map coreFields =
      some (j.id, j.url, j.format_type, j.quality, j.playlist, j.playlist_title,
            some (j.total_videos.getD 0), some (j.current_video.getD 0),
            some (j.video_titles.getD []), some (j.skipped_videos.getD [])) := by
  unfold reloadAfterWrite
  rw [loadJobFromDir_eq, Option.map_some']
  refine congrArg some ?_
  have hbase : coreFields
      (if (statusDocToRaw (mkStatusDoc j)).status.getD "failed" = "downloading"
       then { completedValidation (baseJobOfRaw j.id (metaDocToRaw (writeJobMetadata j))
                (statusDocToRaw (mkStatusDoc j)) now) fe entries with
              status := JobStatus.interrupted }
       else completedValidation (baseJobOfRaw j.id (metaDocToRaw (writeJobMetadata j))
              (statusDocToRaw (mkStatusDoc j)) now) fe entries) =
      coreFields (baseJobOfRaw j.id (metaDocToRaw (writeJobMetadata j))
        (statusDocToRaw (mkStatusDoc j)) now) := by
    by_cases hd : (statusDocToRaw (mkStatusDoc j)).status.getD "failed" = "downloading"
    · rw [if_pos hd, coreFields_interrupted, completedValidation_coreFields]
    · rw [if_neg hd, completedValidation_coreFields]
  rw [hbase]
  have hid : (baseJobOfRaw j.id (metaDocToRaw (writeJobMetadata j))
      (statusDocToRaw (mkStatusDoc j)) now).id = j.id := by
    show (if strTrim j.id ≠ "" then j.id else j.id) = j.id
    exact ite_self j.id
  have hfmt : (baseJobOfRaw j.id (metaDocToRaw (writeJobMetadata j))
      (statusDocToRaw (mkStatusDoc j)) now).format_type = j.format_type :=
    roundTripFormat j.format_type
  have hqual : (baseJobOfRaw j.id (metaDocToRaw (writeJobMetadata j))
      (statusDocToRaw (mkStatusDoc j)) now).quality = j.quality := by
    show (if j.quality ≠ "" then j.quality else "best") = j.quality
    exact if_pos hq
  have hpt2 : (baseJobOfRaw j.id (metaDocToRaw (writeJobMetadata j))
      (statusDocToRaw (mkStatusDoc j)) now).playlist_title = j.playlist_title :=
    roundTripTitle j.playlist_title hpt
  unfold coreFields
  rw [hid, hfmt, hqual, hpt2]
  rfl

/-- Witness for C7 at a concrete input with all optional playlist
fields populated: every claimed field round-trips exactly. -/
theorem C7_witness :
    (reloadAfterWrite runningPlaylistJob 0 noFile []).map coreFields =
      some ("job-pl", "https://youtu.be/abc", FormatType.audio, "best", true, none,
            some 3, some 2, some ["01 - A", "02 - B"], some ["00 - Z"]) :=
  C7_roundtrip_normalized runningPlaylistJob 0 noFile [] (by decide) (by decide)

/-- Claim C8 is false in its playlist-name part: handling a
playlist-name line performs *no* status-document write at all — here,
even though far more than 1.5 s elapsed since the last write, the
persisted status document and the throttle clock are untouched (only
the metadata document is written). -/
theorem C8_counterexample :
    (10000 : Int) - p0.lastWrite ≥ 1500 ∧
    (processPlaylistLine runningPlaylistJob p0 10000 playlistNameLine).1.playlist_title =
      some "EDM" ∧
    (processPlaylistLine runningPlaylistJob p0 10000 playlistNameLine).2.statusDoc =
      p0.statusDoc ∧
    (processPlaylistLine runningPlaylistJob p0 10000 playlistNameLine).2.lastWrite =
      p0.lastWrite :=
  ⟨by decide, rfl, rfl, rfl⟩

/-- Claim C8 (amended): a track-boundary line updates
`current_video`/`total_videos`, resets `percent` to 0, clears the
current title, and its status write is forced (performed whatever the
throttle clock says); rule-1 progress writes are throttled to one per
1.5 s; the playlist-name rule writes the metadata document immediately
but performs no status write; terminal transitions
(single-download finish, playlist finish, cancel) always force the
status write. -/
theorem C8_extractor_write_policy (j : Job) (p : Persist) (now : Int) (cur tot : Nat)
    (d : ProgressData) (t : String) (L : LineMatch) (code : Int) (e : Option String)
    (st : String) (entries : List FsEntry) (zipOk : Bool) (dirEx : Bool) :
    (L.progress = none → L.trackBoundary = some (cur, tot) →
      (processPlaylistLine j p now L).1.current_video = some cur ∧
      (processPlaylistLine j p now L).1.total_videos = some tot ∧
      (processPlaylistLine j p now L).1.percent = some 0 ∧
      (processPlaylistLine j p now L).1.current_title = some "" ∧
      (processPlaylistLine j p now L).2.statusDoc =
        some (mkStatusDoc (processPlaylistLine j p now L).1) ∧
      (processPlaylistLine j p now L).2.lastWrite = now) ∧
    (L.progress = some d → now - p.lastWrite < 1500 →
      (processPlaylistLine j p now L).2.statusDoc = p.statusDoc ∧
      (processPlaylistLine j p now L).2.lastWrite = p.lastWrite) ∧
    (L.progress = some d → ¬ now - p.lastWrite < 1500 →
      (processPlaylistLine j p now L).2.statusDoc =
        some (mkStatusDoc (applyProgress j d)) ∧
      (processPlaylistLine j p now L).2.lastWrite = now) ∧
    (L.progress = none → L.trackBoundary = none → L.destination = none →
     L.extractAudio = none → L.complete100 = false → L.playlistName = some t →
      (processPlaylistLine j p now L).1.playlist_title = some t ∧
      (processPlaylistLine j p now L).2.metaDoc =
        some (writeJobMetadata { j with playlist_title := some t }) ∧
      (processPlaylistLine j p now L).2.statusDoc = p.statusDoc ∧
      (processPlaylistLine j p now L).2.lastWrite = p.lastWrite) ∧
    ((downloadVideoFinish j code e st entries now p).2.statusDoc =
      some (mkStatusDoc (downloadVideoFinish j code e st entries now p).1)) ∧
    ((downloadPlaylistFinish j code e entries zipOk now p).2.statusDoc =
      some (mkStatusDoc (downloadPlaylistFinish j code e entries zipOk now p).1)) ∧
    ((cancelJob (some j) dirEx now p).persist.statusDoc =
      some (mkStatusDoc { j with status := JobStatus.failed,
                                 error := some "Cancelled by user",
                                 hasProcess := false })) := by
  obtain ⟨Lp, Ltb, Ld, Lea, Lc, Lpn, Ls⟩ := L
  refine ⟨fun h1 h2 => ?_, fun h1 h2 => ?_, fun h1 h2 => ?_,
          fun h1 h2 h3 h4 h5 h6 => ?_, ?_, ?_, rfl⟩
  · dsimp only at h1 h2
    subst h1; subst h2
    exact ⟨rfl, rfl, rfl, rfl, rfl, rfl⟩
  · dsimp only at h1
    subst h1
    show (writeJobStatus (applyProgress j d) false now p).statusDoc = p.statusDoc ∧
      (writeJobStatus (applyProgress j d) false now p).lastWrite = p.lastWrite
    rw [writeJobStatus_throttled _ _ _ h2]
    exact ⟨rfl, rfl⟩
  · dsimp only at h1
    subst h1
    show (writeJobStatus (applyProgress j d) false now p).statusDoc =
        some (mkStatusDoc (applyProgress j d)) ∧
      (writeJobStatus (applyProgress j d) false now p).lastWrite = now
    rw [writeJobStatus_unthrottled _ _ _ h2]
    exact ⟨rfl, rfl⟩
  · dsimp only at h1 h2 h3 h4 h5 h6
    subst h1; subst h2; subst h3; subst h4; subst h5; subst h6
    exact ⟨rfl, rfl, rfl, rfl⟩
  · unfold downloadVideoFinish
    by_cases hc : code ≠ 0
    · rw [if_pos hc]
      rfl
    · rw [if_neg hc]
      cases hm : findMediaFileForJob j.id entries <;> rfl
  · unfold downloadPlaylistFinish
    by_cases h0 : (playlistScan j.format_type entries).length = 0
    · rw [if_pos h0]
      rfl
    · rw [if_neg h0]
      by_cases hz : zipOk = false
      · rw [if_pos hz]
        rfl
      · rw [if_neg hz]
        dsimp only
        split <;> rfl

/-- Witness for C8 at concrete inputs: a track-boundary line resets the
per-track fields and force-writes the status document; a progress line
arriving 1000 ms after the last write is throttled away. -/
theorem C8_witness :
    (processPlaylistLine runningPlaylistJob p0 10000 trackLine).1.percent = some 0 ∧
    (processPlaylistLine runningPlaylistJob p0 10000 trackLine).1.current_title = some "" ∧
    (processPlaylistLine runningPlaylistJob p0 10000 trackLine).2.lastWrite = 10000 ∧
    (processPlaylistLine runningPlaylistJob p0 1000 progressLine).2.statusDoc =
      p0.statusDoc :=
  ⟨((C8_extractor_write_policy runningPlaylistJob p0 10000 2 10
      { percent := 50, file_size := "9.8MiB", speed := some "1MiB/s", eta := some "00:10" }
      "EDM" trackLine 0 none "" [] true true).1 rfl rfl).2.2.1,
   ((C8_extractor_write_policy runningPlaylistJob p0 10000 2 10
      { percent := 50, file_size := "9.8MiB", speed := some "1MiB/s", eta := some "00:10" }
      "EDM" trackLine 0 none "" [] true true).1 rfl rfl).2.2.2.1,
   ((C8_extractor_write_policy runningPlaylistJob p0 10000 2 10
      { percent := 50, file_size := "9.8MiB", speed := some "1MiB/s", eta := some "00:10" }
      "EDM" trackLine 0 none "" [] true true).1 rfl rfl).2.2.2.2.2,
   ((C8_extractor_write_policy runningPlaylistJob p0 1000 2 10
      { percent := 50, file_size := "9.8MiB", speed := some "1MiB/s", eta := some "00:10" }
      "EDM" progressLine 0 none "" [] true true).2.1 rfl (by decide)).1⟩

/-- Claim C10 (confirmed): a directory whose metadata document is
missing or unparsable is skipped (no job record); a missing or
unparsable status document, a status field that is absent or not a
string, and a status string outside the known five all load the job as
`failed` rather than raising. -/
theorem C10_recovery_robustness (d : String) (meta : MetaRaw) (status? : Option StatusRaw)
    (pr : Option ℚ) (s : String) (now : Int) (fe : String → Bool)
    (entries : List FsEntry) :
    loadJobFromDir d none status? now fe entries = none ∧
    (loadJobFromDir d (some meta) none now fe entries).map Job.status =
      some JobStatus.failed ∧
    (loadJobFromDir d (some meta) (some { status := none, progress := pr }) now fe
        entries).map Job.status = some JobStatus.failed ∧
    (s ∉ (["queued", "downloading", "complete", "failed", "interrupted"] : List String) →
      (loadJobFromDir d (some meta) (some { status := some s, progress := pr }) now fe
          entries).map Job.status = some JobStatus.failed) := by
  have hfailed : (baseJobOfRaw d meta { status := some "failed", progress := some 0 }
      now).status ≠ JobStatus.completed := by
    rw [baseJobOfRaw_status]
    show fromStoredStatus "failed" ≠ JobStatus.completed
    decide
  refine ⟨rfl, ?_, ?_, fun hs => ?_⟩
  · rw [loadJobFromDir_noStatus,
        loadJobFromDir_notDownloading d meta (some 0) now fe entries "failed" (by decide),
        completedValidation_of_ne _ fe entries hfailed,
        Option.map_some', baseJobOfRaw_status]
    rfl
  · have hne : (baseJobOfRaw d meta { status := none, progress := pr } now).status ≠
        JobStatus.completed := by
      rw [baseJobOfRaw_status]
      show fromStoredStatus "failed" ≠ JobStatus.completed
      decide
    rw [loadJobFromDir_eq]
    rw [if_neg (by show ¬ (("failed" : String) = "downloading"); decide)]
    rw [completedValidation_of_ne _ fe entries hne, Option.map_some', baseJobOfRaw_status]
    rfl
  · simp only [List.mem_cons, List.not_mem_nil, or_false, not_or] at hs
    obtain ⟨h1, h2, h3, h4, h5⟩ := hs
    have hne : (baseJobOfRaw d meta { status := some s, progress := pr } now).status ≠
        JobStatus.completed := by
      rw [baseJobOfRaw_status]
      show fromStoredStatus s ≠ JobStatus.completed
      rw [fromStoredStatus_default s h1 h2 h3 h4 h5]
      decide
    rw [loadJobFromDir_notDownloading d meta pr now fe entries s h2,
        completedValidation_of_ne _ fe entries hne, Option.map_some', baseJobOfRaw_status]
    show some (fromStoredStatus s) = some JobStatus.failed
    rw [fromStoredStatus_default s h1 h2 h3 h4 h5]

/-- Witness for C10 at concrete inputs: no metadata → skipped; no
status document → failed; unknown status string → failed. -/
theorem C10_witness :
    loadJobFromDir "dir" none none 0 noFile [] = none ∧
    (loadJobFromDir "dir" (some emptyMeta) none 0 noFile []).map Job.status =
      some JobStatus.failed ∧
    (loadJobFromDir "dir" (some emptyMeta)
        (some { status := some "banana", progress := none }) 0 noFile []).map Job.status =
      some JobStatus.failed :=
  ⟨(C10_recovery_robustness "dir" emptyMeta none none "banana" 0 noFile []).1,
   (C10_recovery_robustness "dir" emptyMeta none none "banana" 0 noFile []).2.1,
   (C10_recovery_robustness "dir" emptyMeta none none "banana" 0 noFile []).2.2.2
     (by decide)⟩

/-- Witness for C5 at concrete inputs: an interrupted job is resumed
(with the continue flag), a completed one is rejected untouched. -/
theorem C5_witness :
    resumeJob (some interruptedJob) 0 p0 =
      { result := ApiResult.ok,
        job := some { interruptedJob with status := JobStatus.pending, error := none },
        persist := writeJobStatus { interruptedJob with status := JobStatus.pending, error := none } true 0 p0,
        dispatched := some (false, true) } ∧
    resumeJob (some doneJob) 0 p0 =
      { result := ApiResult.badRequest, job := some doneJob, persist := p0,
        dispatched := none } :=
  ⟨(C5_resume_iff_interrupted 0 p0 interruptedJob).2.2 rfl,
   (C5_resume_iff_interrupted 0 p0 doneJob).2.1 (by decide)⟩

end YTD
